import Mathlib

/-!
Shallow embedding of the analytical core of campaign_dashboard.py and
verification of the frozen claims about it.

Money amounts, revenues and ratios are modelled as rationals.  The Python
float value inf (the sentinel produced for CAC when a campaign has no
payers) is modelled by the value none of an Option type, and the NaN
sentinel used for an undefined LTV is likewise modelled by none.  All
divisions performed by the source are guarded (the guard is part of the
embedded definition), so rational division is a faithful model on every
reachable branch.
-/

namespace CampaignDashboard

/-! ## Unit-economics engine (campaign_dashboard.py lines 1095-1161) -/

/-- Health status labels of the economics table, lines 1116-1127.  The
constructors stand for the source strings (emoji prefixes dropped):
No Payers, LTV unavailable, Excellent, Good, Break-even, Losing Money. -/
inductive Status where
  | noPayers
  | ltvUnavailable
  | excellent
  | good
  | breakEven
  | losingMoney
deriving DecidableEq, Repr

/-- Recommendation strings of lines 1129-1140, abstracted to labels:
review targeting, reduce budget or change strategy, scale the campaign,
increase budget, optimize for better ROI, monitor closely. -/
inductive Advice where
  | reviewTargeting
  | reduceBudget
  | scaleUp
  | increaseBudget
  | optimize
  | monitorClosely
deriving DecidableEq, Repr

/-- Row inclusion test of lines 1103-1105: a campaign row with
budget less than or equal to 0 is skipped (continue). -/
def includedRow (budget : ℚ) : Bool :=
  if budget ≤ 0 then false else true

/-- Customer acquisition cost, line 1112: budget divided by payers when
there are payers, otherwise the +infinity sentinel (none). -/
def cacOf (budget : ℚ) (payers : ℕ) : Option ℚ :=
  if 0 < payers then some (budget / payers) else none

/-- Return on investment, line 1113: percentage gain of revenue over
budget, 0 when the budget is not positive. -/
def roiOf (budget revenue : ℚ) : ℚ :=
  if 0 < budget then (revenue - budget) / budget * 100 else 0

/-- LTV value used by the economics row, line 1110: revenue per payer,
with the NaN sentinel of a payerless campaign replaced by 0. -/
def ltvUsedOf (revenue : ℚ) (payers : ℕ) : ℚ :=
  if 0 < payers then revenue / payers else 0

/-- Membership test cac in (0.0, inf) appearing on lines 1114 and 1118. -/
def cacZeroOrInf (cac : Option ℚ) : Bool :=
  match cac with
  | none => true
  | some c => c == 0

/-- LTV/CAC ratio, line 1114: ltv divided by cac when cac is finite and
nonzero and ltv is positive, otherwise the 0 sentinel meaning the ratio
is unavailable. -/
def ltvCacOf (ltv : ℚ) (cac : Option ℚ) : ℚ :=
  match cac with
  | none => 0
  | some c => if c ≠ 0 ∧ 0 < ltv then ltv / c else 0

/-- Status decision chain of lines 1116-1127, first match wins. -/
def statusOf (payers : ℕ) (ltvUsed : ℚ) (cac : Option ℚ) (ratio : ℚ) : Status :=
  if payers = 0 then .noPayers
  else if ltvUsed ≤ 0 ∨ cacZeroOrInf cac = true ∨ ratio ≤ 0 then .ltvUnavailable
  else if 3 ≤ ratio then .excellent
  else if (3 : ℚ) / 2 ≤ ratio then .good
  else if 1 ≤ ratio then .breakEven
  else .losingMoney

/-- Recommendation decision chain of lines 1129-1140, first match wins.
The chain takes the ROI as an input; the status chain does not. -/
def adviceOf (payers : ℕ) (roi : ℚ) (ratio : ℚ) : Advice :=
  if payers = 0 then .reviewTargeting
  else if roi < 0 then .reduceBudget
  else if 3 ≤ ratio then .scaleUp
  else if (3 : ℚ) / 2 ≤ ratio then .increaseBudget
  else if 1 ≤ ratio then .optimize
  else .monitorClosely

/-- Economics row computed for one included campaign, lines 1107-1157. -/
structure EconRow where
  budget : ℚ
  payers : ℕ
  revenue : ℚ
  ltvUsed : ℚ
  cac : Option ℚ
  roi : ℚ
  ltvCac : ℚ
  status : Status
  advice : Advice
deriving Repr

/-- Computation of one economics row from the campaign aggregate
(revenue, payers) and the user budget, lines 1107-1140. -/
def computeRow (budget revenue : ℚ) (payers : ℕ) : EconRow :=
  let ltvUsed := ltvUsedOf revenue payers
  let cac := cacOf budget payers
  let roi := roiOf budget revenue
  let ratio := ltvCacOf ltvUsed cac
  { budget := budget
    payers := payers
    revenue := revenue
    ltvUsed := ltvUsed
    cac := cac
    roi := roi
    ltvCac := ratio
    status := statusOf payers ltvUsed cac ratio
    advice := adviceOf payers roi ratio }

/-- Status rules exactly as the specification sentence words them: the
second rule tests that cac is not finite, where the source instead tests
membership of cac in (0.0, inf).  This definition follows the words of
the claim and is compared against the source definition statusOf. -/
def statusSpecRules (payers : ℕ) (ltv : ℚ) (cac : Option ℚ) (ratio : ℚ) : Status :=
  if payers = 0 then .noPayers
  else if ltv ≤ 0 ∨ cac = none ∨ ratio ≤ 0 then .ltvUnavailable
  else if 3 ≤ ratio then .excellent
  else if (3 : ℚ) / 2 ≤ ratio then .good
  else if 1 ≤ ratio then .breakEven
  else .losingMoney

/-! ## Bayesian comparator (campaign_dashboard.py lines 575-643) -/

/-- Posterior alpha parameter of the Beta draws on lines 584-585:
purchases + 1.  Counts are modelled as integers, as Python computes
them. -/
def posteriorAlpha (purchases : ℤ) : ℤ :=
  purchases + 1

/-- Posterior beta parameter of the Beta draws on lines 584-585:
users - purchases + 1. -/
def posteriorBeta (users purchases : ℤ) : ℤ :=
  users - purchases + 1

/-- Win probability of line 586: the fraction of positionally paired
posterior draws where the B draw strictly exceeds the A draw, as a
percentage.  The same-seed two-run comparison of the claim is modelled
by evaluating both orientations over one shared set of paired draws. -/
def probBetterPct (samplesA samplesB : List ℚ) : ℚ :=
  100 * ((samplesA.zip samplesB).countP (fun q => q.1 < q.2) : ℚ) /
    ((samplesA.zip samplesB).length : ℚ)

/-! ## Aggregator (campaign_dashboard.py lines 493-533 and 1040-1068) -/

/-- User-level record as the aggregation steps consume it: an optional
user identifier (none models a missing ruserid cell, which the pandas
distinct count skips), the purchase indicator value and the numeric
revenue (the _rev_num column of line 1040, already coerced with missing
cells filled by 0). -/
structure URecord where
  userId : Option ℕ
  purchase : ℚ
  revenue : ℚ

/-- Distinct user count: nunique of ruserid, counting distinct non-null
identifiers (lines 495, 528). -/
def distinctUsers (rs : List URecord) : ℕ :=
  ((rs.filterMap URecord.userId).dedup).length

/-- Purchase total: sum of the purcheas_ind column over all rows
(lines 496, 528). -/
def purchaseSum (rs : List URecord) : ℚ :=
  (rs.map URecord.purchase).sum

/-- Overall conversion rate of the home page, line 497: guarded by
total_users > 0 and 0 otherwise. -/
def overallConversionRate (rs : List URecord) : ℚ :=
  if 0 < distinctUsers rs then purchaseSum rs / (distinctUsers rs : ℚ) * 100 else 0

/-- Per-campaign conversion rate of the home-page summary table,
line 531: Purchases / Users * 100 with no guard on Users. -/
def summaryConversionRate (rs : List URecord) : ℚ :=
  purchaseSum rs / (distinctUsers rs : ℚ) * 100

/-- Sample campaign with two distinct users, one of whom purchased,
used by witnesses. -/
def twoUserSample : List URecord :=
  [{ userId := some 1, purchase := 1, revenue := 0 },
   { userId := some 2, purchase := 0, revenue := 0 }]

/-- Sample record with a purchase flag set but zero revenue, used by
witnesses. -/
def zeroRevenueRecord : URecord :=
  { userId := some 1, purchase := 1, revenue := 0 }

/-- Payer count of lines 1042-1047: distinct users among the rows whose
revenue is positive. -/
def payersCount (rs : List URecord) : ℕ :=
  (((rs.filter (fun r => 0 < r.revenue)).filterMap URecord.userId).dedup).length

/-- Campaign revenue of line 1054: sum of the revenue column restricted
to positive entries. -/
def revenueSum (rs : List URecord) : ℚ :=
  ((rs.map URecord.revenue).filter (fun x => 0 < x)).sum

/-- Lifetime value of lines 1066-1068: revenue per payer when there are
payers, otherwise the NaN sentinel (none). -/
def ltvAgg (rs : List URecord) : Option ℚ :=
  if 0 < payersCount rs then some (revenueSum rs / (payersCount rs : ℚ)) else none

/-! ## Attribution engine (campaign_dashboard.py lines 771-943) -/

/-- Usable rows of the attribution fit, lines 783 and 852: dropna keeps
exactly the rows with no missing cell. -/
def usableRows (rows : List (List (Option ℚ))) : List (List (Option ℚ)) :=
  rows.filter (fun r => r.all Option.isSome)

/-- Outcome of one attribution invocation: either the model is fitted
(over the usable rows) or the informational not-enough-data message of
lines 842 and 943 is shown.  No exception crosses this boundary; the
embedded function is total. -/
inductive FitOutcome where
  | fitted (usableCount : ℕ)
  | notEnoughData
deriving DecidableEq, Repr

/-- Gate of lines 785 and 854, shared by the grouped and the detailed
mode: the model is fitted exactly when the usable row count exceeds
30. -/
def attributionOutcome (rows : List (List (Option ℚ))) : FitOutcome :=
  if 30 < (usableRows rows).length then .fitted (usableRows rows).length
  else .notEnoughData

/-- Sample input of 31 complete rows, used by witnesses. -/
def thirtyOneRows : List (List (Option ℚ)) :=
  List.replicate 31 [some 1]

/-- Column names are carried as character lists so that the prefix
tests of line 851 compute structurally. -/
abbrev ColName := List Char

/-- Conversion from a string literal to a column name. -/
def cn (s : String) : ColName :=
  s.data

/-- Question prefixes of lines 845-849. -/
def questionPrefixes : List ColName :=
  [cn "use_the_internet_for_", cn "do_on_social_media_",
   cn "enter_personal_details_online_", cn "keep_your_passwords_",
   cn "victim_of_online_scam_", cn "nline_accounts_hacked_"]

/-- Per-option binary flags created from the multi-answer columns by
lines 198-206, in creation order. -/
def splitOptionColumns : List ColName :=
  [cn "use_the_internet_for_1", cn "use_the_internet_for_2",
   cn "use_the_internet_for_3", cn "use_the_internet_for_4",
   cn "use_the_internet_for_5", cn "use_the_internet_for_6",
   cn "do_on_social_media_1", cn "do_on_social_media_2",
   cn "do_on_social_media_3", cn "do_on_social_media_4",
   cn "enter_personal_details_online_1", cn "enter_personal_details_online_2",
   cn "enter_personal_details_online_3", cn "enter_personal_details_online_4",
   cn "enter_personal_details_online_5", cn "enter_personal_details_online_6"]

/-- Per-option binary flags created from the single-answer columns by
lines 209-216, in creation order. -/
def expandOptionColumns : List ColName :=
  [cn "keep_your_passwords_1", cn "keep_your_passwords_2",
   cn "keep_your_passwords_3", cn "keep_your_passwords_4",
   cn "victim_of_online_scam_1", cn "victim_of_online_scam_2",
   cn "nline_accounts_hacked_1", cn "nline_accounts_hacked_2"]

/-- Grouped answered-any flags created by lines 219-228. -/
def answeredColumns : List ColName :=
  [cn "use_the_internet_for_answered", cn "do_on_social_media_answered",
   cn "enter_personal_details_online_answered", cn "keep_your_passwords_answered",
   cn "victim_of_online_scam_answered", cn "nline_accounts_hacked_answered"]

/-- Columns of the uploaded sheet that the source references, before
the derived columns are appended. -/
def baseColumns : List ColName :=
  [cn "campaign", cn "Campaign number", cn "ruserid",
   cn "use_the_internet_for", cn "do_on_social_media",
   cn "enter_personal_details_online", cn "keep_your_passwords",
   cn "victim_of_online_scam", cn "nline_accounts_hacked",
   cn "safety_level_quiz_score", cn "breach_found", cn "transaction_start",
   cn "trial_ind", cn "purcheas_ind", cn "revenue", cn "plan"]

/-- Column list of the prepared dataframe on the single-campaign page:
the sheet columns followed by the derived columns in creation order
(lines 198-232). -/
def dfColumns : List ColName :=
  baseColumns ++ splitOptionColumns ++ expandOptionColumns ++
    answeredColumns ++ [cn "finished_quiz"]

/-- Feature selection of line 851: every dataframe column that starts
with one of the question prefixes. -/
def optionColumnsOf (cols : List ColName) : List ColName :=
  cols.filter (fun c => questionPrefixes.any (fun p => p.isPrefixOf c))

/-- Individual per-option binary flags across all survey questions: the
feature set that the claim asserts for the detailed mode. -/
def perOptionFlagColumns : List ColName :=
  splitOptionColumns ++ expandOptionColumns

/-- Ranking step of lines 865-868: sort by importance descending and
keep the first 10 entries. -/
def rankedTop10 (imps : List (ColName × ℚ)) : List (ColName × ℚ) :=
  (imps.mergeSort (fun a b => decide (b.2 ≤ a.2))).take 10

/-- Static feature-to-answer mapping of lines 870-895. -/
def answerMapping : List (ColName × String) :=
  [(cn "use_the_internet_for_1", "Social media"),
   (cn "use_the_internet_for_2", "Banking & Finance"),
   (cn "use_the_internet_for_3", "Online shopping"),
   (cn "use_the_internet_for_4", "Gaming"),
   (cn "use_the_internet_for_5", "Streaming"),
   (cn "use_the_internet_for_6", "Research & Education"),
   (cn "do_on_social_media_1", "News/Events"),
   (cn "do_on_social_media_2", "Post Photos"),
   (cn "do_on_social_media_3", "Entertainment"),
   (cn "do_on_social_media_4", "Brand Research"),
   (cn "enter_personal_details_online_1", "Credit Card"),
   (cn "enter_personal_details_online_2", "Phone Number"),
   (cn "enter_personal_details_online_3", "Passport"),
   (cn "enter_personal_details_online_4", "Date of Birth"),
   (cn "enter_personal_details_online_5", "Address"),
   (cn "enter_personal_details_online_6", "SSN"),
   (cn "keep_your_passwords_1", "Notepad"),
   (cn "keep_your_passwords_2", "Computer"),
   (cn "keep_your_passwords_3", "Password Manager"),
   (cn "keep_your_passwords_4", "Remember Mentally"),
   (cn "victim_of_online_scam_1", "No"),
   (cn "victim_of_online_scam_2", "Yes"),
   (cn "nline_accounts_hacked_1", "No"),
   (cn "nline_accounts_hacked_2", "Yes")]

/-- Display cell of line 906: the pandas map call yields the mapped
label, or the NaN sentinel (none) when the feature has no entry. -/
def displayCell (f : ColName) : Option String :=
  (answerMapping.find? (fun q => q.1 == f)).map Prod.snd

/-- Chart label of line 913: fillna replaces a missing display cell by
the raw feature name. -/
def chartLabel (f : ColName) : String :=
  (displayCell f).getD (String.mk f)

/-- Top-answer insight cell of line 929: the first entry of the raw
Display column, with no fillna applied. -/
def topAnswerCell (ranked : List (ColName × ℚ)) : Option (Option String) :=
  (ranked.map (fun q => displayCell q.1)).head?

/-! ## Theorems settling the claims -/

/-- Claim C1: for every campaign row included in the unit-economics
output (budget > 0), the status computed by the source decision chain
equals the status given by the priority-ordered rule list of the
specification (payers == 0 gives No Payers; then ltv <= 0 or cac not
finite or ratio <= 0 gives LTV unavailable; then the 3.0 / 1.5 / 1.0
ratio thresholds; else Losing Money). -/
theorem status_follows_spec_rules (budget revenue : ℚ) (payers : ℕ)
    (h : includedRow budget = true) :
    (computeRow budget revenue payers).status =
      statusSpecRules payers (ltvUsedOf revenue payers) (cacOf budget payers)
        (ltvCacOf (ltvUsedOf revenue payers) (cacOf budget payers)) := by
  have hb : 0 < budget := by
    by_contra hle
    simp [includedRow, le_of_not_lt hle] at h
  rcases Nat.eq_zero_or_pos payers with hp | hp
  · simp [computeRow, statusOf, statusSpecRules, hp]
  · have hpz : payers ≠ 0 := Nat.pos_iff_ne_zero.mp hp
    have hpq : (0 : ℚ) < (payers : ℚ) := by exact_mod_cast hp
    have hcac : cacOf budget payers = some (budget / payers) := by
      simp [cacOf, hp]
    have hcpos : 0 < budget / (payers : ℚ) := div_pos hb hpq
    have hcne : budget / (payers : ℚ) ≠ 0 := ne_of_gt hcpos
    have hzi : cacZeroOrInf (some (budget / (payers : ℚ))) = false := by
      simp [cacZeroOrInf, hcne]
    simp [computeRow, statusOf, statusSpecRules, hcac, hzi, hpz]

/-- Witness for C1 at budget 1000, revenue 4000, payers 10 (the worked
example of the specification: ratio 4.0, status Excellent). -/
theorem status_follows_spec_rules_witness :
    includedRow 1000 = true ∧
    (computeRow 1000 4000 10).status =
      statusSpecRules 10 (ltvUsedOf 4000 10) (cacOf 1000 10)
        (ltvCacOf (ltvUsedOf 4000 10) (cacOf 1000 10)) :=
  ⟨by decide, status_follows_spec_rules 1000 4000 10 (by decide)⟩

/-- Claim C2: the recommendation chain checks roi < 0 immediately after
the payers == 0 case and before any ratio threshold, while the status
chain takes no ROI input at all; hence on any row values with
payers > 0, ratio >= 3.0 and roi < 0 the recommendation is the
reduce-budget advice even though the status is Excellent. -/
theorem roi_check_precedes_ratio_in_advice (payers : ℕ) (ltv c roi ratio : ℚ)
    (hp : 0 < payers) (hroi : roi < 0)
    (hr : 3 ≤ ltvCacOf ltv (some c)) :
    adviceOf 0 roi ratio = .reviewTargeting ∧
    adviceOf payers roi ratio = .reduceBudget ∧
    adviceOf payers roi (ltvCacOf ltv (some c)) = .reduceBudget ∧
    statusOf payers ltv (some c) (ltvCacOf ltv (some c)) = .excellent := by
  have hpz : payers ≠ 0 := Nat.pos_iff_ne_zero.mp hp
  have hratio : 0 < ltvCacOf ltv (some c) := lt_of_lt_of_le (by norm_num) hr
  have hcne : c ≠ 0 ∧ 0 < ltv := by
    by_contra hcon
    simp [ltvCacOf, hcon] at hratio
  refine ⟨by simp [adviceOf], by simp [adviceOf, hpz, hroi], by simp [adviceOf, hpz, hroi], ?_⟩
  have hzi : cacZeroOrInf (some c) = false := by
    simp [cacZeroOrInf, hcne.1]
  simp [statusOf, hpz, hzi, not_le.mpr hcne.2, not_le.mpr hratio, hr]

/-- Witness for C2 at payers 1, ltv 3, cac 1, roi -1 (ratio 3.0, ROI
negative): advice is reduce budget, status is Excellent. -/
theorem roi_check_precedes_ratio_in_advice_witness :
    0 < 1 ∧ (-1 : ℚ) < 0 ∧ 3 ≤ ltvCacOf 3 (some 1) ∧
    (adviceOf 0 (-1) 2 = .reviewTargeting ∧
     adviceOf 1 (-1) 2 = .reduceBudget ∧
     adviceOf 1 (-1) (ltvCacOf 3 (some 1)) = .reduceBudget ∧
     statusOf 1 3 (some 1) (ltvCacOf 3 (some 1)) = .excellent) :=
  ⟨by decide, by decide, by simp [ltvCacOf],
   roi_check_precedes_ratio_in_advice 1 3 1 (-1) 2 (by decide) (by decide) (by simp [ltvCacOf])⟩

/-- Claim C10: for every economics row that reaches the metric
computation (the budget skip guarantees budget > 0), cac is either the
+infinity sentinel (payers == 0) or the strictly positive finite value
budget / payers; cac can never be 0, so the cac == 0.0 half of the
membership test cac in (0.0, inf) is unreachable and the test is
equivalent to cac not being finite. -/
theorem cac_positive_or_infinite (budget : ℚ) (payers : ℕ)
    (h : includedRow budget = true) :
    (payers = 0 → cacOf budget payers = none) ∧
    (0 < payers → cacOf budget payers = some (budget / payers) ∧ 0 < budget / (payers : ℚ)) ∧
    cacOf budget payers ≠ some 0 ∧
    (cacZeroOrInf (cacOf budget payers) = true ↔ cacOf budget payers = none) := by
  have hb : 0 < budget := by
    by_contra hle
    simp [includedRow, le_of_not_lt hle] at h
  rcases Nat.eq_zero_or_pos payers with hp | hp
  · refine ⟨fun _ => by simp [cacOf, hp], fun hlt => absurd hp (by omega), ?_, ?_⟩
    · simp [cacOf, hp]
    · simp [cacOf, hp, cacZeroOrInf]
  · have hpq : (0 : ℚ) < (payers : ℚ) := by exact_mod_cast hp
    have hcpos : 0 < budget / (payers : ℚ) := div_pos hb hpq
    have hcne : budget / (payers : ℚ) ≠ 0 := ne_of_gt hcpos
    refine ⟨fun hz => absurd hp (by omega), fun _ => ⟨by simp [cacOf, hp], hcpos⟩, ?_, ?_⟩
    · intro heq
      rw [cacOf, if_pos hp] at heq
      exact hcne (Option.some.injEq _ _ ▸ heq)
    · simp [cacOf, hp, cacZeroOrInf, hcne]

/-- Witness for C10 at budget 500, payers 0 and implicitly checking the
statement shape at a concrete included row. -/
theorem cac_positive_or_infinite_witness :
    includedRow 500 = true ∧
    ((0 = 0 → cacOf 500 0 = none) ∧
     (0 < 0 → cacOf 500 0 = some (500 / 0) ∧ 0 < (500 : ℚ) / ((0 : ℕ) : ℚ)) ∧
     cacOf 500 0 ≠ some 0 ∧
     (cacZeroOrInf (cacOf 500 0) = true ↔ cacOf 500 0 = none)) :=
  ⟨by decide, cac_positive_or_infinite 500 0 (by decide)⟩

/-- Claim C3: for any campaign aggregate with 0 <= purchases <= users,
the posterior drawn on lines 584-585 is Beta(purchases + 1,
users - purchases + 1), whose parameters always satisfy alpha >= 1 and
beta >= 1, and when users == 0 (hence purchases == 0) the posterior is
exactly Beta(1, 1). -/
theorem posterior_parameters_at_least_one (users purchases : ℤ)
    (h0 : 0 ≤ purchases) (h1 : purchases ≤ users) :
    1 ≤ posteriorAlpha purchases ∧ 1 ≤ posteriorBeta users purchases ∧
    (users = 0 → posteriorAlpha purchases = 1 ∧ posteriorBeta users purchases = 1) := by
  unfold posteriorAlpha posteriorBeta
  omega

/-- Witness for C3 at the zero-exposure aggregate users = 0,
purchases = 0: the posterior is the uniform Beta(1, 1). -/
theorem posterior_parameters_at_least_one_witness :
    (0 : ℤ) ≤ 0 ∧
    (1 ≤ posteriorAlpha 0 ∧ 1 ≤ posteriorBeta 0 0 ∧
     ((0 : ℤ) = 0 → posteriorAlpha 0 = 1 ∧ posteriorBeta 0 0 = 1)) :=
  ⟨le_refl 0, posterior_parameters_at_least_one 0 0 (le_refl 0) (le_refl 0)⟩

/-- Counting lemma: on paired draws with no ties, the strict wins of one
side and the strict wins of the other side partition the pairs. -/
theorem countP_lt_add_countP_gt (l : List (ℚ × ℚ))
    (h : ∀ p ∈ l, Prod.fst p ≠ Prod.snd p) :
    l.countP (fun q => q.1 < q.2) + l.countP (fun q => q.2 < q.1) = l.length := by
  induction l with
  | nil => simp
  | cons x xs ih =>
    have hx : x.1 ≠ x.2 := h x (List.mem_cons_self x xs)
    have hxs : ∀ p ∈ xs, Prod.fst p ≠ Prod.snd p :=
      fun p hp => h p (List.mem_cons_of_mem x hp)
    have hrec := ih hxs
    rcases lt_or_gt_of_ne hx with hlt | hgt
    · have e1 : (decide (x.1 < x.2)) = true := decide_eq_true hlt
      have e2 : (decide (x.2 < x.1)) = false := decide_eq_false (not_lt_of_gt hlt)
      simp [List.countP_cons, e1, e2]
      omega
    · have e1 : (decide (x.1 < x.2)) = false := decide_eq_false (not_lt_of_gt hgt)
      have e2 : (decide (x.2 < x.1)) = true := decide_eq_true hgt
      simp [List.countP_cons, e1, e2]
      omega

/-- Claim C8: recomputing the Bayesian comparison with campaigns A and B
swapped over the same paired posterior draws yields complementary win
probabilities: prob_b_better + prob_a_better = 100, provided the two
sample vectors have equal positive length and no paired draws tie (the
tie set has probability zero for continuous Beta draws, which is the
sampling-tolerance caveat of the claim). -/
theorem swapped_win_probabilities_sum_to_100 (a b : List ℚ)
    (hlen : a.length = b.length) (hpos : 0 < a.length)
    (hties : ∀ p ∈ a.zip b, Prod.fst p ≠ Prod.snd p) :
    probBetterPct a b + probBetterPct b a = 100 := by
  have hzlen : (a.zip b).length = a.length := by
    rw [List.length_zip, hlen, min_self]
  have hswap : b.zip a = (a.zip b).map Prod.swap := (List.zip_swap a b).symm
  have hcnt : (b.zip a).countP (fun q => q.1 < q.2) =
      (a.zip b).countP (fun q => q.2 < q.1) := by
    rw [hswap, List.countP_map]
    rfl
  have hzlen2 : (b.zip a).length = a.length := by
    rw [List.length_zip, hlen, min_self]
  have hsum := countP_lt_add_countP_gt (a.zip b) hties
  have hnq : ((a.zip b).length : ℚ) ≠ 0 := by
    rw [hzlen]
    exact_mod_cast Nat.pos_iff_ne_zero.mp hpos
  unfold probBetterPct
  rw [hcnt, hzlen2, hzlen]
  rw [div_add_div_same, ← mul_add]
  have : (((a.zip b).countP fun q => q.1 < q.2) : ℚ) +
      ((a.zip b).countP fun q => q.2 < q.1) = ((a.zip b).length : ℚ) := by
    exact_mod_cast congrArg (Nat.cast : ℕ → ℚ) hsum
  rw [this, hzlen]
  field_simp

/-- Witness for C8 on the concrete paired draws (2, 1) and (1, 2): one
win for each side. -/
theorem swapped_win_probabilities_sum_to_100_witness :
    ([(2 : ℚ), 1].length = [(1 : ℚ), 2].length) ∧
    0 < [(2 : ℚ), 1].length ∧
    (∀ p ∈ [(2 : ℚ), 1].zip [(1 : ℚ), 2], Prod.fst p ≠ Prod.snd p) ∧
    probBetterPct [(2 : ℚ), 1] [(1 : ℚ), 2] +
      probBetterPct [(1 : ℚ), 2] [(2 : ℚ), 1] = 100 :=
  ⟨rfl, by decide, by decide,
   swapped_win_probabilities_sum_to_100 [(2 : ℚ), 1] [(1 : ℚ), 2]
     rfl (by decide) (by decide)⟩

/-- Counterexample to C4: a campaign whose two rows carry the same user
identifier and a purchase flag each has Users = 1, Purchases = 2, and
the summary table reports a 200 percent conversion rate, outside
[0, 100].  (Purchases is a row sum while Users is a distinct count, so
a repeated purchasing user breaks the bound.) -/
theorem conversion_rate_exceeds_100_counterexample :
    summaryConversionRate
        [{ userId := some 1, purchase := 1, revenue := 0 },
         { userId := some 1, purchase := 1, revenue := 0 }] = 200 ∧
    ¬ summaryConversionRate
        [{ userId := some 1, purchase := 1, revenue := 0 },
         { userId := some 1, purchase := 1, revenue := 0 }] ≤ 100 := by
  have h : summaryConversionRate
      [{ userId := some 1, purchase := 1, revenue := 0 },
       { userId := some 1, purchase := 1, revenue := 0 }] = 200 := by
    simp [summaryConversionRate, purchaseSum, distinctUsers, List.dedup]
    norm_num
  exact ⟨h, by rw [h]; norm_num⟩

/-- Helper: when every record carries a user identifier, the identifier
column has one entry per row. -/
theorem filterMap_userId_length (rs : List URecord)
    (h : ∀ r ∈ rs, (URecord.userId r).isSome = true) :
    (rs.filterMap URecord.userId).length = rs.length := by
  induction rs with
  | nil => simp
  | cons x xs ih =>
    have hx := h x (List.mem_cons_self x xs)
    have hxs : ∀ r ∈ xs, (URecord.userId r).isSome = true :=
      fun r hr => h r (List.mem_cons_of_mem x hr)
    rcases Option.isSome_iff_exists.mp hx with ⟨u, hu⟩
    simp [List.filterMap_cons, hu, ih hxs]

/-- Claim C4 amended: under the data-model preconditions (every record
carries a user identifier, identifiers are pairwise distinct across
records, purchase flags are 0/1), the home-page overall conversion rate
lies in [0, 100] and equals 0 when there are no users, and the
per-campaign summary rate lies in [0, 100] for every nonempty campaign
group (a group with rows always has Users >= 1, so no division by zero
arises; both computations are total functions). -/
theorem conversion_rate_bounds (rs : List URecord)
    (hsome : ∀ r ∈ rs, (URecord.userId r).isSome = true)
    (hnodup : (rs.filterMap URecord.userId).Nodup)
    (hflag : ∀ r ∈ rs, URecord.purchase r = 0 ∨ URecord.purchase r = 1) :
    (0 ≤ overallConversionRate rs ∧ overallConversionRate rs ≤ 100) ∧
    (distinctUsers rs = 0 → overallConversionRate rs = 0) ∧
    (rs ≠ [] →
      0 < distinctUsers rs ∧
      0 ≤ summaryConversionRate rs ∧ summaryConversionRate rs ≤ 100) := by
  have husers : distinctUsers rs = rs.length := by
    unfold distinctUsers
    rw [List.Nodup.dedup hnodup, filterMap_userId_length rs hsome]
  have hp0 : 0 ≤ purchaseSum rs := by
    apply List.sum_nonneg
    intro x hx
    rcases List.mem_map.mp hx with ⟨r, hr, hrx⟩
    rcases hflag r hr with h | h
    · rw [← hrx, h]
    · rw [← hrx, h]
      norm_num
  have hple : purchaseSum rs ≤ (rs.length : ℚ) := by
    have hbound : ∀ x ∈ rs.map URecord.purchase, x ≤ (1 : ℚ) := by
      intro x hx
      rcases List.mem_map.mp hx with ⟨r, hr, hrx⟩
      rcases hflag r hr with h | h
      · rw [← hrx, h]
        norm_num
      · rw [← hrx, h]
    calc purchaseSum rs ≤ (rs.map URecord.purchase).length • (1 : ℚ) :=
          List.sum_le_card_nsmul _ 1 hbound
      _ = (rs.length : ℚ) := by simp
  have hsummary : rs ≠ [] →
      0 < distinctUsers rs ∧
      0 ≤ summaryConversionRate rs ∧ summaryConversionRate rs ≤ 100 := by
    intro hne
    have hlen : 0 < rs.length := List.length_pos.mpr hne
    have hupos : 0 < distinctUsers rs := by rw [husers]; exact hlen
    have huq : (0 : ℚ) < (distinctUsers rs : ℚ) := by exact_mod_cast hupos
    constructor
    · exact hupos
    constructor
    · unfold summaryConversionRate
      positivity
    · unfold summaryConversionRate
      rw [husers]
      have hq : purchaseSum rs / (rs.length : ℚ) ≤ 1 := by
        rw [div_le_one (by exact_mod_cast hlen)]
        exact hple
      calc purchaseSum rs / (rs.length : ℚ) * 100 ≤ 1 * 100 := by
            apply mul_le_mul_of_nonneg_right hq
            norm_num
        _ = 100 := by norm_num
  constructor
  · rcases List.eq_nil_or_concat rs with hnil | _
    · subst hnil
      simp [overallConversionRate, distinctUsers]
    · rcases Nat.eq_zero_or_pos (distinctUsers rs) with hz | hpos
      · simp [overallConversionRate, hz]
      · have hne : rs ≠ [] := by
          intro hnil
          rw [hnil] at hpos
          simp [distinctUsers] at hpos
        have := hsummary hne
        unfold overallConversionRate
        rw [if_pos hpos]
        exact ⟨this.2.1, this.2.2⟩
  constructor
  · intro hz
    simp [overallConversionRate, hz]
  · exact hsummary

/-- Witness for C4 amended on two distinct users, one purchasing: both
rates are 50, inside the bounds. -/
theorem conversion_rate_bounds_witness :
    (∀ r ∈ twoUserSample, (URecord.userId r).isSome = true) ∧
    ((twoUserSample.filterMap URecord.userId).Nodup) ∧
    (∀ r ∈ twoUserSample, URecord.purchase r = 0 ∨ URecord.purchase r = 1) ∧
    ((0 ≤ overallConversionRate twoUserSample ∧
      overallConversionRate twoUserSample ≤ 100) ∧
     (distinctUsers twoUserSample = 0 → overallConversionRate twoUserSample = 0) ∧
     (twoUserSample ≠ [] →
      0 < distinctUsers twoUserSample ∧
      0 ≤ summaryConversionRate twoUserSample ∧
      summaryConversionRate twoUserSample ≤ 100)) :=
  ⟨by decide, by decide, by decide,
   conversion_rate_bounds twoUserSample (by decide) (by decide) (by decide)⟩

/-- Helper: the payer identifier column ignores the purchase flag. -/
theorem payers_ids_ignore_purchase (rs : List URecord) (f : URecord → ℚ) :
    ((rs.map (fun x => { x with purchase := f x })).filter
        (fun r => 0 < r.revenue)).filterMap URecord.userId =
      (rs.filter (fun r => 0 < r.revenue)).filterMap URecord.userId := by
  induction rs with
  | nil => simp
  | cons x xs ih =>
    by_cases hx : 0 < x.revenue
    · simp [List.filter_cons, hx, List.filterMap_cons, ih]
    · simp [List.filter_cons, hx, ih]

/-- Claim C9: payers is the count of distinct users with positive
revenue, unchanged by any rewriting of the purchase flags; revenue is
the sum of positive revenue entries, and a record with revenue <= 0
contributes to neither; and ltv is the undefined sentinel (none),
never the number 0, exactly when payers == 0, and equals
revenue / payers otherwise. -/
theorem payers_revenue_ltv_spec (rs : List URecord) (r : URecord) (f : URecord → ℚ) :
    payersCount (rs.map (fun x => { x with purchase := f x })) = payersCount rs ∧
    (r.revenue ≤ 0 →
      payersCount (r :: rs) = payersCount rs ∧ revenueSum (r :: rs) = revenueSum rs) ∧
    (ltvAgg rs = none ↔ payersCount rs = 0) ∧
    (0 < payersCount rs → ltvAgg rs = some (revenueSum rs / (payersCount rs : ℚ))) := by
  refine ⟨?_, ?_, ?_, ?_⟩
  · unfold payersCount
    rw [payers_ids_ignore_purchase rs f]
  · intro hrev
    have hx : ¬ 0 < r.revenue := not_lt.mpr hrev
    constructor
    · unfold payersCount
      simp [List.filter_cons, hx]
    · unfold revenueSum
      simp [List.filter_cons, hx]
  · unfold ltvAgg
    rcases Nat.eq_zero_or_pos (payersCount rs) with hz | hpos
    · simp [hz]
    · simp [hpos, Nat.pos_iff_ne_zero.mp hpos]
  · intro hpos
    unfold ltvAgg
    rw [if_pos hpos]

/-- Witness for C9: a purchase-flagged record with zero revenue adds no
payer and no revenue, and the ltv of the empty aggregate is the
undefined sentinel, not zero. -/
theorem payers_revenue_ltv_spec_witness :
    zeroRevenueRecord.revenue ≤ 0 ∧
    (payersCount [zeroRevenueRecord] = payersCount [] ∧
     revenueSum [zeroRevenueRecord] = revenueSum []) ∧
    ltvAgg ([] : List URecord) = none :=
  have h := payers_revenue_ltv_spec [] zeroRevenueRecord (fun _ => 1)
  have hrev : zeroRevenueRecord.revenue ≤ 0 := by decide
  ⟨hrev, h.2.1 hrev, (h.2.2.1).mpr (by decide)⟩

/-- Claim C5: the attribution fit (grouped and detailed mode share the
gate) is performed if and only if the usable row count after dropping
rows with missing cells is strictly greater than 30; at 30 or fewer the
outcome is the explicit not-enough-data information, and at exactly 31
the fit happens. -/
theorem attribution_gate (rows : List (List (Option ℚ))) :
    ((∃ n, attributionOutcome rows = .fitted n) ↔ 30 < (usableRows rows).length) ∧
    ((usableRows rows).length ≤ 30 → attributionOutcome rows = .notEnoughData) ∧
    ((usableRows rows).length = 31 → attributionOutcome rows = .fitted 31) := by
  unfold attributionOutcome
  by_cases h : 30 < (usableRows rows).length
  · refine ⟨⟨fun _ => h, fun _ => ⟨(usableRows rows).length, by rw [if_pos h]⟩⟩, ?_, ?_⟩
    · intro hle
      exact absurd h (not_lt.mpr hle)
    · intro h31
      rw [if_pos h, h31]
  · refine ⟨⟨fun ⟨n, hn⟩ => ?_, fun hlt => absurd hlt h⟩, fun _ => by rw [if_neg h], ?_⟩
    · rw [if_neg h] at hn
      exact absurd hn (by simp)
    · intro h31
      exact absurd (h31 ▸ (by norm_num : (30 : ℕ) < 31)) h

/-- Witness for C5: 31 complete rows pass the gate and 30 do not. -/
theorem attribution_gate_witness :
    ((usableRows thirtyOneRows).length = 31 ∧
      attributionOutcome thirtyOneRows = .fitted 31) ∧
    ((usableRows (List.replicate 30 [some 1])).length ≤ 30 ∧
      attributionOutcome (List.replicate 30 [some 1]) = .notEnoughData) :=
  ⟨⟨by decide, (attribution_gate thirtyOneRows).2.2 (by decide)⟩,
   ⟨by decide, (attribution_gate (List.replicate 30 [some 1])).2.1 (by decide)⟩⟩

/-- Counterexample to C6: the prefix filter of line 851 also selects
the grouped answered-any columns, because each of them starts with its
question prefix; the detailed-mode feature set therefore is not exactly
the individual per-option flags. -/
theorem detailed_feature_set_counterexample :
    cn "use_the_internet_for_answered" ∈ optionColumnsOf dfColumns ∧
    cn "use_the_internet_for_answered" ∉ perOptionFlagColumns ∧
    optionColumnsOf dfColumns ≠ perOptionFlagColumns := by
  decide

/-- Claim C6 amended: the detailed-mode feature set consists of the
individual per-option binary flags across all survey questions plus the
six grouped answered-any flags (every column matching a question
prefix, and nothing else); the ranked output is truncated to at most 10
features in descending importance order. -/
theorem detailed_feature_set_amended :
    optionColumnsOf dfColumns = perOptionFlagColumns ++ answeredColumns ∧
    ∀ imps : List (ColName × ℚ),
      (rankedTop10 imps).length ≤ 10 ∧
      List.Sorted (fun a b : ColName × ℚ => b.2 ≤ a.2) (rankedTop10 imps) := by
  constructor
  · decide
  · intro imps
    constructor
    · unfold rankedTop10
      simp [List.length_take]
    · unfold rankedTop10
      have htrans : ∀ a b c : ColName × ℚ,
          (fun x y : ColName × ℚ => decide (y.2 ≤ x.2)) a b = true →
          (fun x y : ColName × ℚ => decide (y.2 ≤ x.2)) b c = true →
          (fun x y : ColName × ℚ => decide (y.2 ≤ x.2)) a c = true := by
        intro a b c hab hbc
        simp only [decide_eq_true_eq] at hab hbc ⊢
        exact le_trans hbc hab
      have htotal : ∀ a b : ColName × ℚ,
          ((fun x y : ColName × ℚ => decide (y.2 ≤ x.2)) a b ||
           (fun x y : ColName × ℚ => decide (y.2 ≤ x.2)) b a) = true := by
        intro a b
        simp only [Bool.or_eq_true, decide_eq_true_eq]
        exact (le_total b.2 a.2)
      have hs := List.sorted_mergeSort htrans htotal imps
      have hsub : List.Sublist
          ((imps.mergeSort (fun a b => decide (b.2 ≤ a.2))).take 10)
          (imps.mergeSort (fun a b => decide (b.2 ≤ a.2))) :=
        List.take_sublist 10 _
      exact (hs.sublist hsub).imp (fun h => of_decide_eq_true h)

/-- Counterexample to C7: the answered-any feature has no entry in the
static mapping; the chart label falls back to the raw feature name, but
the top-answer insight reads the unfilled Display column and shows the
missing-value sentinel instead of the raw name. -/
theorem top_answer_not_defaulted_counterexample :
    displayCell (cn "use_the_internet_for_answered") = none ∧
    chartLabel (cn "use_the_internet_for_answered") =
      String.mk (cn "use_the_internet_for_answered") ∧
    topAnswerCell [(cn "use_the_internet_for_answered", 1)] = some none ∧
    topAnswerCell [(cn "use_the_internet_for_answered", 1)] ≠
      some (some (String.mk (cn "use_the_internet_for_answered"))) := by
  refine ⟨by decide, ?_, ?_, ?_⟩
  · have h : displayCell (cn "use_the_internet_for_answered") = none := by decide
    simp [chartLabel, h]
  · have h : displayCell (cn "use_the_internet_for_answered") = none := by decide
    simp [topAnswerCell, h]
  · have h : displayCell (cn "use_the_internet_for_answered") = none := by decide
    simp [topAnswerCell, h]

/-- Claim C7 amended: the chart display labels come from the static
mapping with the raw feature name as the fallback for unmapped
features, while the top-answer insight surfaces the raw mapping cell of
the top-ranked feature, which is the missing-value sentinel (not the
raw name) when that feature is unmapped. -/
theorem display_label_defaults_amended (f : ColName) (imp : ℚ)
    (rest : List (ColName × ℚ)) :
    (displayCell f = none →
      chartLabel f = String.mk f ∧ topAnswerCell ((f, imp) :: rest) = some none) ∧
    (∀ s, displayCell f = some s →
      chartLabel f = s ∧ topAnswerCell ((f, imp) :: rest) = some (some s)) := by
  constructor
  · intro h
    exact ⟨by simp [chartLabel, h], by simp [topAnswerCell, h]⟩
  · intro s hs
    exact ⟨by simp [chartLabel, hs], by simp [topAnswerCell, hs]⟩

/-- Witness for C7 amended at the unmapped answered-any feature and at
the mapped feature keep_your_passwords_3. -/
theorem display_label_defaults_amended_witness :
    (displayCell (cn "use_the_internet_for_answered") = none ∧
     (chartLabel (cn "use_the_internet_for_answered") =
        String.mk (cn "use_the_internet_for_answered") ∧
      topAnswerCell [(cn "use_the_internet_for_answered", 1)] = some none)) ∧
    (displayCell (cn "keep_your_passwords_3") = some "Password Manager" ∧
     (chartLabel (cn "keep_your_passwords_3") = "Password Manager" ∧
      topAnswerCell [(cn "keep_your_passwords_3", 1)] =
        some (some "Password Manager"))) :=
  have h1 : displayCell (cn "use_the_internet_for_answered") = none := by decide
  have h2 : displayCell (cn "keep_your_passwords_3") = some "Password Manager" := by
    simp [displayCell, answerMapping, cn]
  ⟨⟨h1, (display_label_defaults_amended (cn "use_the_internet_for_answered") 1 []).1 h1⟩,
   ⟨h2, (display_label_defaults_amended (cn "keep_your_passwords_3") 1 []).2 _ h2⟩⟩

end CampaignDashboard
